import Mathlib

/-!
Verification development for the `logger-rs` repository (crate `rslogger`).

The embedding translates `src/lib.rs` (the `Logger` dispatcher) and
`src/writer.rs` (the `BufferedWriter` sink) into executable Lean
definitions.  Machine-level I/O is modelled by an explicit environment:
the underlying byte sink either accepts operations (`sinkOk = true`) or
fails them, and the `mpsc` channel of a separate-thread writer is a list
of pending messages together with a flag recording whether the receiving
side (the worker thread) is still alive.  A Rust `panic!`/`expect`
is modelled as an exceptional result of type `Panic`; `RwLock`s are
modelled unpoisoned (lock poisoning aborts in every code path and is
orthogonal to the claims treated here).
-/

/-- Severity levels of the `log` crate: `Error` is the most severe.  The
numeric representation mirrors the crate (`Error = 1`, ..., `Trace = 5`). -/
inductive Level where
  | Error
  | Warn
  | Info
  | Debug
  | Trace
deriving DecidableEq, Repr

/-- `log::LevelFilter`: a level threshold, with `Off = 0` below `Error = 1`. -/
inductive LevelFilter where
  | Off
  | Error
  | Warn
  | Info
  | Debug
  | Trace
deriving DecidableEq, Repr

/-- Numeric value of a `LevelFilter`, as in the `log` crate's `usize`
representation; the crate's `PartialOrd` compares these numbers. -/
def LevelFilter.toNat : LevelFilter → Nat
  | .Off => 0
  | .Error => 1
  | .Warn => 2
  | .Info => 3
  | .Debug => 4
  | .Trace => 5

/-- `Level::to_level_filter`. -/
def Level.toLevelFilter : Level → LevelFilter
  | .Error => .Error
  | .Warn => .Warn
  | .Info => .Info
  | .Debug => .Debug
  | .Trace => .Trace

/-- `Level`'s `Display` output (`record.level().to_string()`). -/
def Level.asStr : Level → String
  | .Error => "ERROR"
  | .Warn => "WARN"
  | .Info => "INFO"
  | .Debug => "DEBUG"
  | .Trace => "TRACE"

/-- The `Timestamps` enum of `src/lib.rs`. -/
inductive Timestamps where
  | None
  | Local
  | Utc
deriving DecidableEq, Repr

/-- `WriteTarget` from `src/writer.rs`. -/
inductive WriteTarget where
  | StdOut
  | File
deriving DecidableEq, Repr

/-- `WriteMode` from `src/writer.rs`: write on the caller's thread or on a
dedicated separate thread. -/
inductive WriteMode where
  | ThisThread
  | SeparateThread
deriving DecidableEq, Repr

/-- `MsgType` from `src/writer.rs`: the messages sent over the channel to
the separate writer thread. -/
inductive MsgType where
  | Msg (s : String)
  | Flush
deriving DecidableEq, Repr

/-- A Rust panic, abstracted to the two panic sources reachable from an
unpoisoned-lock execution of `src/writer.rs`: unwrapping an absent
`Option` field, and an `expect` on a failed I/O operation. -/
inductive Panic where
  | unwrapNone
  | ioError
deriving DecidableEq, Repr

/-- State of `BufWriter<dyn Write + Send + Sync>`: a capacity-bounded byte
buffer in front of an underlying byte sink.  Byte content is modelled at
the granularity of the written chunks (each `write` call passes one
chunk); `buf` are the chunks currently buffered, `written` the chunks
that have reached the underlying sink.  `sinkOk` records whether the
underlying sink currently accepts I/O (false makes its writes and
flushes return an I/O error). -/
structure BufWriterSt where
  capacity : Nat
  buf : List String
  written : List String
  sinkOk : Bool
deriving DecidableEq, Repr

/-- Number of bytes currently held in the `BufWriter`'s buffer. -/
def BufWriterSt.bufLen (bw : BufWriterSt) : Nat :=
  (bw.buf.map String.length).sum

/-- `BufWriter::flush_buf`: writes the whole buffer to the underlying sink
and empties it; does nothing on an empty buffer; fails if the sink
rejects the write. -/
def BufWriterSt.flushBuf (bw : BufWriterSt) : Except Unit BufWriterSt :=
  if bw.buf = [] then .ok bw
  else if bw.sinkOk then .ok { bw with buf := [], written := bw.written ++ bw.buf }
  else .error ()

/-- `BufWriter::write`: if the incoming chunk does not fit the remaining
capacity, the buffer is flushed first; a chunk at least as large as the
whole capacity is written straight through to the sink, otherwise it is
appended to the buffer. -/
def BufWriterSt.write (bw : BufWriterSt) (s : String) : Except Unit BufWriterSt :=
  match (if bw.bufLen + s.length > bw.capacity then bw.flushBuf else .ok bw) with
  | .error e => .error e
  | .ok bw1 =>
    if s.length ≥ bw1.capacity then
      if bw1.sinkOk then .ok { bw1 with written := bw1.written ++ [s] }
      else .error ()
    else .ok { bw1 with buf := bw1.buf ++ [s] }

/-- `BufWriter::flush`: flush the buffer, then flush the underlying sink. -/
def BufWriterSt.flush (bw : BufWriterSt) : Except Unit BufWriterSt :=
  match bw.flushBuf with
  | .error e => .error e
  | .ok bw1 => if bw1.sinkOk then .ok bw1 else .error ()

/-- Producer-side view of the `mpsc::channel` feeding a separate-thread
writer: the queue of messages sent but not yet consumed, and whether the
receiving side (the worker) still exists. -/
structure ChanSt where
  pending : List MsgType
  receiverAlive : Bool
deriving DecidableEq, Repr

/-- `Sender::send`: enqueues the message in FIFO order; fails (returning
the message to the caller) exactly when the receiver has been dropped. -/
def ChanSt.send (c : ChanSt) (m : MsgType) : Except Unit ChanSt :=
  if c.receiverAlive then .ok { c with pending := c.pending ++ [m] }
  else .error ()

/-- Placeholder channel paired with a `ThisThread` writer, which has no
channel at all: empty and unconnected. -/
def ChanSt.nil : ChanSt := { pending := [], receiverAlive := false }

/-- The `BufferedWriter` struct of `src/writer.rs`.  `buf_writer` is the
optional buffered stream (set by `init_writers`), `thread_handler`
records whether the `JoinHandle` of the separate thread is held, and
`sender` is the optional sending endpoint of the worker channel (the
channel's shared state lives in a `ChanSt` alongside). -/
structure BufferedWriter where
  target : WriteTarget
  mode : WriteMode
  file_path : String
  buffer_capacity : Nat
  buf_writer : Option BufWriterSt
  thread_handler : Bool
  sender : Option Unit
deriving DecidableEq, Repr

/-- `DEFAULT_BUFFER_CAPACITY` from `src/writer.rs`. -/
def DEFAULT_BUFFER_CAPACITY : Nat := 100

/-- `BufferedWriter::new`: default target `StdOut`, default mode
`ThisThread`, default capacity, all optional fields unset. -/
def BufferedWriter.new : BufferedWriter :=
  { target := .StdOut
    mode := .ThisThread
    file_path := ""
    buffer_capacity := DEFAULT_BUFFER_CAPACITY
    buf_writer := none
    thread_handler := false
    sender := none }

/-- `BufferedWriter::on_stdout`. -/
def BufferedWriter.on_stdout (w : BufferedWriter) : BufferedWriter :=
  { w with target := .StdOut }

/-- `BufferedWriter::on_file`. -/
def BufferedWriter.on_file (w : BufferedWriter) (file_path : String) : BufferedWriter :=
  { w with target := .File, file_path := file_path }

/-- `BufferedWriter::with_this_thread`. -/
def BufferedWriter.with_this_thread (w : BufferedWriter) : BufferedWriter :=
  { w with mode := .ThisThread }

/-- `BufferedWriter::with_separate_thread`. -/
def BufferedWriter.with_separate_thread (w : BufferedWriter) : BufferedWriter :=
  { w with mode := .SeparateThread }

/-- `BufferedWriter::with_buffer_capacity`. -/
def BufferedWriter.with_buffer_capacity (w : BufferedWriter) (capacity : Nat) : BufferedWriter :=
  { w with buffer_capacity := capacity }

/-- The environment an initialization runs against: whether the file
path has a parent directory, whether `fs::create_dir_all`, the
`OpenOptions` file open and `thread::Builder::spawn` succeed (with the
detail text of the underlying error when they fail), and whether the
opened byte sink subsequently accepts I/O. -/
structure Env where
  hasParent : Bool
  dirCreateOk : Bool
  dirErrMsg : String
  fileOpenOk : Bool
  openErrMsg : String
  spawnOk : Bool
  spawnErrMsg : String
  sinkOk : Bool
deriving DecidableEq, Repr

/-- `BufferedWriter::init_writers`: panics (`none`) if a buffered stream is
already present; for `StdOut` wraps the console handle, for `File`
creates the parent directory when there is one and opens the file in
create-or-append mode, surfacing either failure as a descriptive
`Err` string; on success installs the capacity-bounded buffer. -/
def BufferedWriter.init_writers (env : Env) (w : BufferedWriter) :
    Option (Except String BufferedWriter) :=
  if w.buf_writer.isSome then none
  else
    match w.target with
    | .StdOut =>
        some (.ok { w with
          buf_writer := some ⟨w.buffer_capacity, [], [], env.sinkOk⟩ })
    | .File =>
        if env.hasParent ∧ ¬ env.dirCreateOk then
          some (.error ("Error while creating directory for logging. Details: "
            ++ env.dirErrMsg))
        else if ¬ env.fileOpenOk then
          some (.error ("Error while opening log file. Details: " ++ env.openErrMsg))
        else
          some (.ok { w with
            buf_writer := some ⟨w.buffer_capacity, [], [], env.sinkOk⟩ })

/-- `BufferedWriter::write_on_this_thread`: writes `message + "\n"` to the
buffered stream; `expect` turns an I/O failure into a panic, modelled as
`none`. -/
def BufferedWriter.write_on_this_thread (message : String) (bw : BufWriterSt) :
    Option BufWriterSt :=
  match bw.write (message ++ "\n") with
  | .ok bw1 => some bw1
  | .error _ => none

/-- `BufferedWriter::flush_on_this_thread`: flushes the buffered stream;
`expect` turns an I/O failure into a panic, modelled as `none`. -/
def BufferedWriter.flush_on_this_thread (bw : BufWriterSt) : Option BufWriterSt :=
  match bw.flush with
  | .ok bw1 => some bw1
  | .error _ => none

/-- One iteration of the worker-thread loop body spawned by
`init_separate_thread`: dispatch on the received message. -/
def workerStep (bw : BufWriterSt) (m : MsgType) : Option BufWriterSt :=
  match m with
  | .Msg msg => BufferedWriter.write_on_this_thread msg bw
  | .Flush => BufferedWriter.flush_on_this_thread bw

/-- The worker thread's `while let Ok(new_message) = receiver.recv()` loop
over the complete FIFO sequence of messages it will ever receive: the
loop consumes the messages strictly in order and returns (terminates)
exactly when the sequence is exhausted, i.e. when every sender has been
dropped and the queue is drained; `none` models the worker panicking on
an I/O failure. -/
def runWorker (bw : BufWriterSt) : List MsgType → Option BufWriterSt
  | [] => some bw
  | m :: ms =>
    match workerStep bw m with
    | none => none
    | some bw1 => runWorker bw1 ms

/-- `BufferedWriter::init_separate_thread`: panics (`none`) on the three
internal consistency checks; otherwise creates the channel, keeps the
sending endpoint, moves the buffered stream out of the struct into the
spawned worker's exclusive custody, and records the join handle; a spawn
failure is surfaced as a descriptive `Err` string. -/
def BufferedWriter.init_separate_thread (env : Env) (w : BufferedWriter) :
    Option (Except String BufferedWriter) :=
  if w.thread_handler then none
  else if w.sender.isSome then none
  else if w.buf_writer.isNone then none
  else if ¬ env.spawnOk then
    some (.error ("Unable to start Writer thread. Details " ++ env.spawnErrMsg))
  else
    some (.ok { w with sender := some (), buf_writer := none, thread_handler := true })

/-- `BufferedWriter::init`: run `init_writers`, then, only in
`SeparateThread` mode, `init_separate_thread`. -/
def BufferedWriter.init (env : Env) (w : BufferedWriter) :
    Option (Except String BufferedWriter) :=
  match w.init_writers env with
  | none => none
  | some (.error e) => some (.error e)
  | some (.ok w1) =>
    match w1.mode with
    | .SeparateThread => w1.init_separate_thread env
    | .ThisThread => some (.ok w1)

/-- `BufferedWriter::write`: `ThisThread` unwraps the buffered stream
(panicking when absent) and writes on the caller's thread; `SeparateThread`
unwraps the sender (panicking when absent) and sends `Msg(message)`,
discarding any send error (`let _ = ...`). -/
def BufferedWriter.write (w : BufferedWriter) (chan : ChanSt) (message : String) :
    Except Panic (BufferedWriter × ChanSt) :=
  match w.mode with
  | .ThisThread =>
    match w.buf_writer with
    | none => .error .unwrapNone
    | some bw =>
      match BufferedWriter.write_on_this_thread message bw with
      | none => .error .ioError
      | some bw1 => .ok ({ w with buf_writer := some bw1 }, chan)
  | .SeparateThread =>
    match w.sender with
    | none => .error .unwrapNone
    | some _ =>
      match chan.send (.Msg message) with
      | .ok c1 => .ok (w, c1)
      | .error _ => .ok (w, chan)

/-- `BufferedWriter::flush`: `ThisThread` unwraps the buffered stream
(panicking when absent) and flushes on the caller's thread;
`SeparateThread` unwraps the sender (panicking when absent) and sends
`Flush`, swallowing any send error (`unwrap_or_default`). -/
def BufferedWriter.flush (w : BufferedWriter) (chan : ChanSt) :
    Except Panic (BufferedWriter × ChanSt) :=
  match w.mode with
  | .ThisThread =>
    match w.buf_writer with
    | none => .error .unwrapNone
    | some bw =>
      match BufferedWriter.flush_on_this_thread bw with
      | none => .error .ioError
      | some bw1 => .ok ({ w with buf_writer := some bw1 }, chan)
  | .SeparateThread =>
    match w.sender with
    | none => .error .unwrapNone
    | some _ =>
      match chan.send .Flush with
      | .ok c1 => .ok (w, c1)
      | .error _ => .ok (w, chan)

/-- The producer-side flush viewed in the whole separate-thread system
(writer, channel, worker-owned stream): the call is exactly
`BufferedWriter::flush`, which holds no reference to the buffered stream
(it was moved into the worker at `init`), so the stream component passes
through untouched. -/
def BufferedWriter.flushWithWorkerStream (w : BufferedWriter) (chan : ChanSt)
    (stream : BufWriterSt) : Except Panic (BufferedWriter × ChanSt × BufWriterSt) :=
  match w.flush chan with
  | .ok (w1, c1) => .ok (w1, c1, stream)
  | .error p => .error p

/-- The `Logger` struct of `src/lib.rs`.  Each writer is paired with the
`ChanSt` of the channel its `sender` endpoint feeds (`ChanSt.nil` for a
`ThisThread` writer, which has no channel). -/
structure Logger where
  log_level : LevelFilter
  timestamps : Timestamps
  thread : Bool
  target : Bool
  writers : List (BufferedWriter × ChanSt)
deriving DecidableEq, Repr

/-- `Logger::new`: default level `Trace`, local timestamps, no thread name,
no target, no writers. -/
def Logger.new : Logger :=
  { log_level := .Trace
    timestamps := .Local
    thread := false
    target := false
    writers := [] }

/-- `Logger::with_level`. -/
def Logger.with_level (lg : Logger) (level : LevelFilter) : Logger :=
  { lg with log_level := level }

/-- `Logger::with_utc_timestamps`. -/
def Logger.with_utc_timestamps (lg : Logger) : Logger :=
  { lg with timestamps := .Utc }

/-- `Logger::with_local_timestamps`. -/
def Logger.with_local_timestamps (lg : Logger) : Logger :=
  { lg with timestamps := .Local }

/-- `Logger::without_timestamps`. -/
def Logger.without_timestamps (lg : Logger) : Logger :=
  { lg with timestamps := .None }

/-- `Logger::with_thread`. -/
def Logger.with_thread (lg : Logger) : Logger :=
  { lg with thread := true }

/-- `Logger::with_target`. -/
def Logger.with_target (lg : Logger) : Logger :=
  { lg with target := true }

/-- `Logger::without_target`. -/
def Logger.without_target (lg : Logger) : Logger :=
  { lg with target := false }

/-- The writer built inside `Logger::add_writer_stdout` before `init`:
`BufferedWriter::new().on_stdout()`, then the optional mode and capacity
builder calls. -/
def mkStdoutWriter (multi_thread : Bool) (capacity : Option Nat) : BufferedWriter :=
  let w := BufferedWriter.new.on_stdout
  let w := if multi_thread then w.with_separate_thread else w
  match capacity with
  | some buf_cap => w.with_buffer_capacity buf_cap
  | none => w

/-- The writer built inside `Logger::add_writer_file` before `init`:
`BufferedWriter::new().on_file(path)`, then the optional mode and
capacity builder calls. -/
def mkFileWriter (file_path : String) (multi_thread : Bool) (capacity : Option Nat) :
    BufferedWriter :=
  let w := BufferedWriter.new.on_file file_path
  let w := if multi_thread then w.with_separate_thread else w
  match capacity with
  | some buf_cap => w.with_buffer_capacity buf_cap
  | none => w

/-- The channel created for a freshly initialized writer: a live, empty
queue in `SeparateThread` mode (`init_separate_thread` creates it), and
no channel in `ThisThread` mode. -/
def initChan (w : BufferedWriter) : ChanSt :=
  match w.mode with
  | .SeparateThread => { pending := [], receiverAlive := true }
  | .ThisThread => ChanSt.nil

/-- `Logger::add_writer_stdout`: build the writer, `init` it; on `Ok`
push it onto `writers`, on `Err` print a diagnostic (returned as the
second component) and leave `writers` unchanged.  `none` models a panic
inside `init`. -/
def Logger.add_writer_stdout (lg : Logger) (multi_thread : Bool)
    (capacity : Option Nat) (env : Env) : Option (Logger × Option String) :=
  match BufferedWriter.init env (mkStdoutWriter multi_thread capacity) with
  | none => none
  | some (.ok iw) =>
      some ({ lg with writers := lg.writers ++ [(iw, initChan iw)] }, none)
  | some (.error e) =>
      some (lg, some ("Error while initializing writer. Details: " ++ e))

/-- `Logger::add_writer_file`: build the writer, `init` it; on `Ok` push
it onto `writers`, on `Err` print a diagnostic (returned as the second
component) and leave `writers` unchanged.  `none` models a panic inside
`init`. -/
def Logger.add_writer_file (lg : Logger) (file_path : String) (multi_thread : Bool)
    (capacity : Option Nat) (env : Env) : Option (Logger × Option String) :=
  match BufferedWriter.init env (mkFileWriter file_path multi_thread capacity) with
  | none => none
  | some (.ok iw) =>
      some ({ lg with writers := lg.writers ++ [(iw, initChan iw)] }, none)
  | some (.error e) =>
      some (lg, some ("Error while initializing writer. Details: " ++ e))

/-- `Log::enabled` for `Logger`:
`metadata.level().to_level_filter() <= self.log_level`. -/
def Logger.enabled (lg : Logger) (lvl : Level) : Bool :=
  lvl.toLevelFilter.toNat ≤ lg.log_level.toNat

/-- A `log::Record` as far as `Logger::log` reads it. -/
structure Record where
  level : Level
  target : String
  module_path : Option String
  args : String
deriving DecidableEq, Repr

/-- Ambient data `Logger::log` obtains from the runtime: the current
thread's optional name and its debug-formatted id, and the formatted
local and UTC timestamps for the current instant. -/
structure FmtEnv where
  threadName : Option String
  threadIdStr : String
  localTs : String
  utcTs : String
deriving DecidableEq, Repr

/-- The `target` string computed by `Logger::log`: empty unless the
`target` option is on, in which case the record's target or, when that
is empty, its module path. -/
def Logger.targetOf (lg : Logger) (rec : Record) : String :=
  if lg.target then
    if rec.target.isEmpty then rec.module_path.getD "" else rec.target
  else ""

/-- The `thread` string computed by `Logger::log`: empty unless the
`thread` option is on, in which case the thread's name or, when it has
none, its debug-formatted id. -/
def Logger.threadOf (lg : Logger) (env : FmtEnv) : String :=
  if lg.thread then
    match env.threadName with
    | some thread_name => thread_name
    | none => env.threadIdStr
  else ""

/-- The timestamp string computed by `Logger::log` according to the
configured policy. -/
def Logger.timestampOf (lg : Logger) (env : FmtEnv) : String :=
  match lg.timestamps with
  | .None => ""
  | .Local => env.localTs
  | .Utc => env.utcTs

/-- The formatted line of `Logger::log`:
the Rust format string is "(timestamp)-[(target)][(thread)] -> \x7b(level)\x7d (args)". -/
def Logger.formatMessage (lg : Logger) (rec : Record) (env : FmtEnv) : String :=
  lg.timestampOf env ++ "-[" ++ lg.targetOf rec ++ "][" ++ lg.threadOf env
    ++ "] -> \x7b" ++ rec.level.asStr ++ "\x7d " ++ rec.args

/-- The `for writer in &self.writers` loop of `Logger::log`: call `write`
with the formatted message on every writer, in insertion order; a panic
in one iteration aborts before the remaining writers are reached. -/
def writeAllWriters (message : String) :
    List (BufferedWriter × ChanSt) → Except Panic (List (BufferedWriter × ChanSt))
  | [] => .ok []
  | p :: ps =>
    match p.1.write p.2 message with
    | .error e => .error e
    | .ok p1 =>
      match writeAllWriters message ps with
      | .error e => .error e
      | .ok ps1 => .ok (p1 :: ps1)

/-- `Log::log` for `Logger`: return unchanged when the record does not
pass the global level; otherwise format the line once and write it to
every configured writer in insertion order. -/
def Logger.log (lg : Logger) (rec : Record) (env : FmtEnv) : Except Panic Logger :=
  if ¬ lg.enabled rec.level then .ok lg
  else
    match writeAllWriters (lg.formatMessage rec env) lg.writers with
    | .error e => .error e
    | .ok ws => .ok { lg with writers := ws }

/-- Modelled from the spec: the teardown part of
`BufferedWriter::flush_and_cleanup`, whose definition is absent from the
sources under `src/` (`src/lib.rs` calls it on each writer, but
`src/writer.rs` does not define it).  Per the spec, the dispatcher is
"torn down (best-effort) by an explicit flush call" and, per the doc
comment on `Logger::flush`, "in case of separate thread, the logger
thread will be stopped": the sending endpoint is dropped (so the worker
terminates after draining the queue) and the join handle is consumed. -/
def BufferedWriter.cleanup (w : BufferedWriter) : BufferedWriter :=
  match w.mode with
  | .SeparateThread => { w with sender := none, thread_handler := false }
  | .ThisThread => w

/-- Modelled from the spec: `BufferedWriter::flush_and_cleanup`, called by
`Logger::flush` but missing from `src/writer.rs`.  Per spec section 4.3,
`flush_all()` "calls `flush()` on every Sink ... each call following
that Sink's own semantics": the writer's own mode-specific `flush`
runs first, followed by the teardown. -/
def BufferedWriter.flush_and_cleanup (w : BufferedWriter) (chan : ChanSt) :
    Except Panic (BufferedWriter × ChanSt) :=
  match w.flush chan with
  | .error p => .error p
  | .ok (w1, c1) => .ok (w1.cleanup, c1)

/-- The `for writer in &self.writers` loop of `Log::flush` for `Logger`:
`flush_and_cleanup` on every writer, sequentially in insertion order; a
panic in one iteration aborts before the remaining writers are
reached. -/
def flushCleanupAll :
    List (BufferedWriter × ChanSt) → Except Panic (List (BufferedWriter × ChanSt))
  | [] => .ok []
  | p :: ps =>
    match p.1.flush_and_cleanup p.2 with
    | .error e => .error e
    | .ok p1 =>
      match flushCleanupAll ps with
      | .error e => .error e
      | .ok ps1 => .ok (p1 :: ps1)

/-- `Log::flush` for `Logger` (the dispatcher-level `flush_all`). -/
def Logger.flushAll (lg : Logger) : Except Panic Logger :=
  match flushCleanupAll lg.writers with
  | .error e => .error e
  | .ok ws => .ok { lg with writers := ws }

/-- Modelled from the spec: the per-sink delivery rule the spec states
("a record of severity R is delivered to that sink iff R is at or above
the global level L and R is at or above the sink's own minimum level S").
The per-sink minimum level and the `add_writer_file_with_level` API that
configures it (called by `examples/file_and_stdout/different-levels.rs`)
are absent from the sources under `src/`. -/
def specDelivered (r : Level) (l s : LevelFilter) : Bool :=
  decide (r.toLevelFilter.toNat ≤ l.toNat) && decide (r.toLevelFilter.toNat ≤ s.toNat)

/-- A `BufferedWriter` on which `init()` has not yet been called: as the
builder methods leave them, the buffered stream, the join handle and the
sending endpoint are all unset. -/
def preInit (w : BufferedWriter) : Prop :=
  w.buf_writer = none ∧ w.sender = none ∧ w.thread_handler = false

/-- The post-initialization invariant of a `BufferedWriter` (spec section
3): in `ThisThread` (Inline) mode the buffered stream is directly
accessible from the producer side and the queue endpoint is unset; in
`SeparateThread` (Background) mode the queue endpoint is set and the
buffered stream has been moved away. -/
def initializedInv (w : BufferedWriter) : Prop :=
  match w.mode with
  | .ThisThread => w.buf_writer.isSome = true ∧ w.sender = none
  | .SeparateThread => w.buf_writer = none ∧ w.sender.isSome = true

/-- An initialization environment in which every external operation
succeeds. -/
def goodEnv : Env :=
  { hasParent := true, dirCreateOk := true, dirErrMsg := ""
    fileOpenOk := true, openErrMsg := "", spawnOk := true, spawnErrMsg := ""
    sinkOk := true }

/-- An environment in which opening the log file fails. -/
def badOpenEnv : Env :=
  { goodEnv with fileOpenOk := false
                 openErrMsg := "No such file or directory (os error 2)" }

/-- An environment in which creating the parent directory fails. -/
def badDirEnv : Env :=
  { goodEnv with dirCreateOk := false
                 dirErrMsg := "Permission denied (os error 13)" }

/-- An environment in which spawning the writer thread fails. -/
def badSpawnEnv : Env :=
  { goodEnv with spawnOk := false
                 spawnErrMsg := "Resource temporarily unavailable" }

/-- The Info record of `examples/file_and_stdout/different-levels.rs` that,
per the example's own comment, must not reach the `genercs_1.log` sink
(intended minimum level `Error`). -/
def c1Rec : Record :=
  { level := .Info, target := "", module_path := some "different_levels"
    args := "This is traced on genercs_2.log but not on genercs_1.log" }

/-- A fixed runtime snapshot for formatting. -/
def c1Fmt : FmtEnv :=
  { threadName := some "main", threadIdStr := "ThreadId(1)"
    localTs := "12:00:00:000000", utcTs := "12:00:00:000000" }

/-- The separate-thread file writer obtained from
`add_writer_file("./LOGS/genercs_1.log", true, Some(10))` after `init`. -/
def c1Writer : BufferedWriter :=
  { target := .File, mode := .SeparateThread, file_path := "./LOGS/genercs_1.log"
    buffer_capacity := 10, buf_writer := none, thread_handler := true
    sender := some () }

/-- The logger of the `different-levels` scenario restricted to the
`genercs_1.log` sink: global level `Trace`, one file sink the example
intends to admit only `Error`-or-more-severe records. -/
def c1LoggerInit : Logger :=
  { log_level := .Trace, timestamps := .Local, thread := false, target := false
    writers := [(c1Writer, { pending := [], receiverAlive := true })] }

/-- The state after dispatching `c1Rec`: the Info line was sent to the
file sink's queue. -/
def c1LoggerAfter : Logger :=
  { c1LoggerInit with
    writers := [(c1Writer,
      { pending := [.Msg (c1LoggerInit.formatMessage c1Rec c1Fmt)]
        receiverAlive := true })] }

/-- A healthy buffered stream holding one buffered line. -/
def wStream0 : BufWriterSt :=
  { capacity := 10, buf := ["hello\n"], written := [], sinkOk := true }

/-- `wStream0` after a flush. -/
def wStream0Flushed : BufWriterSt :=
  { capacity := 10, buf := [], written := ["hello\n"], sinkOk := true }

/-- `wStream0` after buffering one more short line. -/
def wStream0AfterM : BufWriterSt :=
  { capacity := 10, buf := ["hello\n", "m\n"], written := [], sinkOk := true }

/-- A stream whose underlying sink rejects all I/O. -/
def wBadStream : BufWriterSt :=
  { capacity := 0, buf := [], written := [], sinkOk := false }

/-- A healthy zero-capacity stream: every chunk goes straight through. -/
def zeroCapStream : BufWriterSt :=
  { capacity := 0, buf := [], written := [], sinkOk := true }

/-- An initialized separate-thread stdout writer
(`mkStdoutWriter true (some 5)` after `init` under `goodEnv`). -/
def wSepWriter : BufferedWriter :=
  { target := .StdOut, mode := .SeparateThread, file_path := ""
    buffer_capacity := 5, buf_writer := none, thread_handler := true
    sender := some () }

/-- An initialized this-thread stdout writer holding `wStream0`. -/
def wInlineWriter : BufferedWriter :=
  { target := .StdOut, mode := .ThisThread, file_path := ""
    buffer_capacity := 10, buf_writer := some wStream0, thread_handler := false
    sender := none }

/-- A live empty channel. -/
def liveChan : ChanSt := { pending := [], receiverAlive := true }

/-- A channel whose receiver (worker) is gone. -/
def deadChan : ChanSt := { pending := [], receiverAlive := false }

/-- A two-sink logger: one inline stdout sink, one separate-thread stdout
sink. -/
def c2Logger : Logger :=
  { log_level := .Trace, timestamps := .Local, thread := false, target := false
    writers := [(wInlineWriter, ChanSt.nil), (wSepWriter, liveChan)] }

/-- `c2Logger` after `Log::flush`: the inline sink's stream is flushed,
the separate-thread sink got a `Flush` message and lost its sender. -/
def c2LoggerFlushed : Logger :=
  { c2Logger with
    writers := [({ wInlineWriter with buf_writer := some wStream0Flushed }, ChanSt.nil),
      ({ wSepWriter with sender := none, thread_handler := false },
        { pending := [MsgType.Flush], receiverAlive := true })] }

theorem flush_on_this_thread_ok_fields (bw bw' : BufWriterSt)
    (h : BufferedWriter.flush_on_this_thread bw = some bw') :
    bw'.buf = [] ∧ bw'.sinkOk = true := by
  unfold BufferedWriter.flush_on_this_thread BufWriterSt.flush BufWriterSt.flushBuf at h
  by_cases hb : bw.buf = [] <;> cases hs : bw.sinkOk <;>
    simp [hb, hs] at h <;> subst h <;> simp [hb, hs]

theorem flush_on_this_thread_stable (bw : BufWriterSt)
    (hb : bw.buf = []) (hs : bw.sinkOk = true) :
    BufferedWriter.flush_on_this_thread bw = some bw := by
  unfold BufferedWriter.flush_on_this_thread BufWriterSt.flush BufWriterSt.flushBuf
  simp [hb, hs]

/-- C8: for every initialized sink stream, a second `flush()` right after a
successful one is a no-op: it returns the very same stream state (so no
additional bytes reach the underlying sink) and raises no error; the
same holds for two consecutive `FlushSignal` messages processed by a
background worker. -/
theorem c8_flush_twice_noop (bw bw' : BufWriterSt)
    (h : BufferedWriter.flush_on_this_thread bw = some bw') :
    BufferedWriter.flush_on_this_thread bw' = some bw' ∧
    runWorker bw [.Flush, .Flush] = some bw' ∧
    runWorker bw [.Flush] = some bw' := by
  obtain ⟨hb, hs⟩ := flush_on_this_thread_ok_fields bw bw' h
  have h2 := flush_on_this_thread_stable bw' hb hs
  refine ⟨h2, ?_, ?_⟩ <;> simp [runWorker, workerStep, h, h2]

theorem c8_witness :
    BufferedWriter.flush_on_this_thread wStream0Flushed = some wStream0Flushed ∧
    runWorker wStream0 [.Flush, .Flush] = some wStream0Flushed ∧
    runWorker wStream0 [.Flush] = some wStream0Flushed :=
  c8_flush_twice_noop wStream0 wStream0Flushed (by decide)

/-- C7: after successful initialization, an I/O error of the underlying
stream during a write or flush panics (aborting, never returning to the
caller): `write_on_this_thread`/`flush_on_this_thread` panic exactly
when the buffered stream's own `write`/`flush` returns an error, and
whenever they return, the underlying operation succeeded — there is no
error-returning and no silently-continuing outcome; at the writer level
an I/O failure surfaces as the `ioError` panic, never as a value. -/
theorem c7_io_error_panics (bw : BufWriterSt) (msg : String) :
    (BufferedWriter.write_on_this_thread msg bw = none ↔
      bw.write (msg ++ "\n") = .error ()) ∧
    (∀ bw1, BufferedWriter.write_on_this_thread msg bw = some bw1 →
      bw.write (msg ++ "\n") = .ok bw1) ∧
    (BufferedWriter.flush_on_this_thread bw = none ↔ bw.flush = .error ()) ∧
    (∀ bw1, BufferedWriter.flush_on_this_thread bw = some bw1 → bw.flush = .ok bw1) ∧
    (∀ w : BufferedWriter, ∀ chan : ChanSt, w.mode = .ThisThread →
      w.buf_writer = some bw →
      (w.write chan msg = .error .ioError ↔ bw.write (msg ++ "\n") = .error ())) := by
  refine ⟨?_, ?_, ?_, ?_, ?_⟩
  · unfold BufferedWriter.write_on_this_thread
    cases h : bw.write (msg ++ "\n") <;> simp
  · intro bw1
    unfold BufferedWriter.write_on_this_thread
    cases h : bw.write (msg ++ "\n") <;> simp
  · unfold BufferedWriter.flush_on_this_thread
    cases h : bw.flush <;> simp
  · intro bw1
    unfold BufferedWriter.flush_on_this_thread
    cases h : bw.flush <;> simp
  · intro w chan hm hbw
    unfold BufferedWriter.write BufferedWriter.write_on_this_thread
    rw [hm, hbw]
    cases h : bw.write (msg ++ "\n") <;> simp [h]

theorem c7_witness :
    wBadStream.write ("m" ++ "\n") = .error () ∧
    wStream0.write ("m" ++ "\n") = .ok wStream0AfterM ∧
    wStream0.flush = .ok wStream0Flushed ∧
    (wInlineWriter.write ChanSt.nil "m" = .error .ioError ↔
      wStream0.write ("m" ++ "\n") = .error ()) :=
  ⟨(c7_io_error_panics wBadStream "m").1.mp (by decide),
   (c7_io_error_panics wStream0 "m").2.1 wStream0AfterM (by decide),
   (c7_io_error_panics wStream0 "m").2.2.2.1 wStream0Flushed (by decide),
   (c7_io_error_panics wStream0 "m").2.2.2.2 wInlineWriter ChanSt.nil rfl rfl⟩

/-- C9: on a `BufferedWriter` on which `init()` has not been called (its
buffered stream and sender are both unset, as the builders leave them),
both `write()` and `flush()` panic by unwrapping the absent field —
`buf_writer` in `ThisThread` mode, `sender` in `SeparateThread` mode;
under the post-`init` invariant these unwrap panics are unreachable. -/
theorem c9_uninit_write_flush_panic (w : BufferedWriter) (chan : ChanSt) (msg : String) :
    (w.buf_writer = none → w.sender = none →
      w.write chan msg = .error .unwrapNone ∧ w.flush chan = .error .unwrapNone) ∧
    (initializedInv w →
      w.write chan msg ≠ .error .unwrapNone ∧ w.flush chan ≠ .error .unwrapNone) := by
  constructor
  · intro hb hs
    unfold BufferedWriter.write BufferedWriter.flush
    cases hm : w.mode <;> simp [hb, hs]
  · intro hinv
    unfold BufferedWriter.write BufferedWriter.flush
    cases hm : w.mode
    · simp only [initializedInv, hm] at hinv
      obtain ⟨bw, hbw⟩ := Option.isSome_iff_exists.mp hinv.1
      rw [hbw]
      constructor
      · cases h : BufferedWriter.write_on_this_thread msg bw <;> simp [h]
      · cases h : BufferedWriter.flush_on_this_thread bw <;> simp [h]
    · simp only [initializedInv, hm] at hinv
      obtain ⟨u, hsu⟩ := Option.isSome_iff_exists.mp hinv.2
      rw [hsu]
      constructor
      · cases h : chan.send (.Msg msg) <;> simp [h]
      · cases h : chan.send .Flush <;> simp [h]

theorem c9_witness :
    (BufferedWriter.new.write ChanSt.nil "m" = .error .unwrapNone ∧
      BufferedWriter.new.flush ChanSt.nil = .error .unwrapNone) ∧
    (wSepWriter.write liveChan "m" ≠ .error .unwrapNone ∧
      wSepWriter.flush liveChan ≠ .error .unwrapNone) :=
  ⟨(c9_uninit_write_flush_panic BufferedWriter.new ChanSt.nil "m").1 rfl rfl,
   (c9_uninit_write_flush_panic wSepWriter liveChan "m").2 ⟨rfl, rfl⟩⟩

/-- C10: on a `SeparateThread` sink whose worker (the queue's receiving
side) is gone, `write()` silently discards the line and `flush()`
silently does nothing: both return normally with the writer and the
queue unchanged — the send errors are swallowed and neither an error
nor a panic reaches the caller. -/
theorem c10_dead_worker_silent_drop (w : BufferedWriter) (chan : ChanSt) (msg : String)
    (hm : w.mode = .SeparateThread) (hs : w.sender.isSome = true)
    (hr : chan.receiverAlive = false) :
    w.write chan msg = .ok (w, chan) ∧ w.flush chan = .ok (w, chan) := by
  obtain ⟨u, hsu⟩ := Option.isSome_iff_exists.mp hs
  unfold BufferedWriter.write BufferedWriter.flush
  rw [hm, hsu]
  unfold ChanSt.send
  simp [hr]

theorem c10_witness :
    wSepWriter.write deadChan "m" = .ok (wSepWriter, deadChan) ∧
    wSepWriter.flush deadChan = .ok (wSepWriter, deadChan) :=
  c10_dead_worker_silent_drop wSepWriter deadChan "m" rfl rfl rfl

/-- C4: `flush()` on a `SeparateThread` sink only appends the `Flush`
signal to the queue and returns at once: the writer is unchanged, and
the worker-owned buffered stream — unreachable from the producer since
its move at `init` — is untouched, so any bytes still buffered there
have not reached the underlying stream when the call returns. -/
theorem c4_background_flush_no_wait (w : BufferedWriter) (chan : ChanSt)
    (stream : BufWriterSt) (hm : w.mode = .SeparateThread)
    (hs : w.sender.isSome = true) (hr : chan.receiverAlive = true) :
    w.flushWithWorkerStream chan stream =
      .ok (w, { chan with pending := chan.pending ++ [.Flush] }, stream) ∧
    (stream.buf ≠ [] →
      ∃ out, w.flushWithWorkerStream chan stream = .ok out ∧ out.2.2.buf ≠ []) := by
  obtain ⟨u, hsu⟩ := Option.isSome_iff_exists.mp hs
  have h1 : w.flush chan = .ok (w, { chan with pending := chan.pending ++ [.Flush] }) := by
    unfold BufferedWriter.flush
    rw [hm, hsu]
    unfold ChanSt.send
    simp [hr]
  have h2 : w.flushWithWorkerStream chan stream =
      .ok (w, { chan with pending := chan.pending ++ [.Flush] }, stream) := by
    unfold BufferedWriter.flushWithWorkerStream
    rw [h1]
  exact ⟨h2, fun hb => ⟨_, h2, hb⟩⟩

theorem c4_witness :
    wSepWriter.flushWithWorkerStream liveChan wStream0 =
      .ok (wSepWriter, { liveChan with pending := liveChan.pending ++ [.Flush] }, wStream0) ∧
    (wStream0.buf ≠ [] →
      ∃ out, wSepWriter.flushWithWorkerStream liveChan wStream0 = .ok out ∧
        out.2.2.buf ≠ []) :=
  c4_background_flush_no_wait wSepWriter liveChan wStream0 rfl rfl rfl

/-- C5: the background worker loop processes its message sequence strictly
in FIFO order — writing the line plus terminator for each `Msg`, flushing
for each `Flush`, composing sequentially over concatenation — and
returns exactly when the message sequence is exhausted (all senders
dropped and the queue drained), with no other normal termination; on a
healthy zero-capacity stream the written bytes are exactly the lines in
send order. -/
theorem c5_worker_fifo_loop :
    (∀ bw : BufWriterSt, runWorker bw [] = some bw) ∧
    (∀ (bw : BufWriterSt) (s : String) (ms : List MsgType),
      runWorker bw (.Msg s :: ms) =
        match BufferedWriter.write_on_this_thread s bw with
        | none => none
        | some bw1 => runWorker bw1 ms) ∧
    (∀ (bw : BufWriterSt) (ms : List MsgType),
      runWorker bw (.Flush :: ms) =
        match BufferedWriter.flush_on_this_thread bw with
        | none => none
        | some bw1 => runWorker bw1 ms) ∧
    (∀ (bw : BufWriterSt) (ms1 ms2 : List MsgType),
      runWorker bw (ms1 ++ ms2) =
        match runWorker bw ms1 with
        | none => none
        | some bw1 => runWorker bw1 ms2) ∧
    (∀ (msgs : List String) (bw : BufWriterSt),
      bw.sinkOk = true → bw.capacity = 0 → bw.buf = [] →
      runWorker bw (msgs.map .Msg) =
        some { bw with written := bw.written ++ msgs.map (fun m => m ++ "\n") }) := by
  refine ⟨?_, ?_, ?_, ?_, ?_⟩
  · intro bw; simp [runWorker]
  · intro bw s ms
    cases h : BufferedWriter.write_on_this_thread s bw <;>
      simp [runWorker, workerStep, h]
  · intro bw ms
    cases h : BufferedWriter.flush_on_this_thread bw <;>
      simp [runWorker, workerStep, h]
  · intro bw ms1 ms2
    induction ms1 generalizing bw with
    | nil => simp [runWorker]
    | cons m ms1 ih =>
      cases h : workerStep bw m with
      | none => simp [runWorker, h]
      | some bw1 => simp [runWorker, h, ih bw1]
  · intro msgs
    induction msgs with
    | nil =>
      intro bw hs hcap hb
      simp [runWorker]
    | cons m ms ih =>
      intro bw hs hcap hb
      have hfb : bw.flushBuf = .ok bw := by
        unfold BufWriterSt.flushBuf; simp [hb]
      have hw : BufferedWriter.write_on_this_thread m bw =
          some { bw with written := bw.written ++ [m ++ "\n"] } := by
        unfold BufferedWriter.write_on_this_thread BufWriterSt.write
        simp [BufWriterSt.bufLen, hb, hcap, hs, hfb]
      have ih2 := ih { bw with written := bw.written ++ [m ++ "\n"] }
        (by simp [hs]) (by simp [hcap]) (by simp [hb])
      simp [runWorker, workerStep, hw, ih2]

theorem c5_witness :
    runWorker zeroCapStream ((["a", "b"]).map .Msg) =
      some { zeroCapStream with
        written := zeroCapStream.written ++ (["a", "b"]).map (fun m => m ++ "\n") } :=
  c5_worker_fifo_loop.2.2.2.2 ["a", "b"] zeroCapStream rfl rfl rfl

theorem init_writers_ok_shape (env : Env) (b w1 : BufferedWriter)
    (hb : b.buf_writer = none)
    (h : BufferedWriter.init_writers env b = some (.ok w1)) :
    w1 = { b with buf_writer := some ⟨b.buffer_capacity, [], [], env.sinkOk⟩ } := by
  unfold BufferedWriter.init_writers at h
  rw [hb] at h
  cases htg : b.target <;> rw [htg] at h
  · simp at h
    exact h.symm
  · cases hhp : env.hasParent <;> cases hdc : env.dirCreateOk <;>
      cases hfo : env.fileOpenOk <;> simp [hhp, hdc, hfo] at h <;> exact h.symm

theorem init_sep_ok_shape (env : Env) (w1 w : BufferedWriter)
    (ht : w1.thread_handler = false) (hs : w1.sender = none)
    (hbw : w1.buf_writer.isSome = true)
    (h : BufferedWriter.init_separate_thread env w1 = some (.ok w)) :
    w = { w1 with sender := some (), buf_writer := none, thread_handler := true } := by
  obtain ⟨bw, hbweq⟩ := Option.isSome_iff_exists.mp hbw
  unfold BufferedWriter.init_separate_thread at h
  rw [ht, hs, hbweq] at h
  by_cases hsp : env.spawnOk
  · simp [hsp] at h
    exact h.symm
  · simp [hsp] at h

theorem write_preserves_inv (w : BufferedWriter) (hinv : initializedInv w)
    (chan : ChanSt) (msg : String) (r : BufferedWriter × ChanSt)
    (h : w.write chan msg = .ok r) :
    initializedInv r.1 ∧ (w.mode = .SeparateThread → r.1 = w) := by
  cases hm : w.mode
  · simp only [initializedInv, hm] at hinv
    obtain ⟨bw, hbw⟩ := Option.isSome_iff_exists.mp hinv.1
    unfold BufferedWriter.write at h
    rw [hm, hbw] at h
    simp at h
    cases hwt : BufferedWriter.write_on_this_thread msg bw <;> simp [hwt] at h
    subst h
    refine ⟨?_, fun hc => by simp at hc⟩
    simp [initializedInv, hm, hinv.2]
  · simp only [initializedInv, hm] at hinv
    obtain ⟨u, hsu⟩ := Option.isSome_iff_exists.mp hinv.2
    unfold BufferedWriter.write at h
    rw [hm, hsu] at h
    simp at h
    cases hsend : chan.send (.Msg msg) <;> simp [hsend] at h <;> subst h <;>
      exact ⟨by simp [initializedInv, hm, hinv.1, hsu], fun _ => rfl⟩

theorem flush_preserves_inv (w : BufferedWriter) (hinv : initializedInv w)
    (chan : ChanSt) (r : BufferedWriter × ChanSt)
    (h : w.flush chan = .ok r) :
    initializedInv r.1 ∧ (w.mode = .SeparateThread → r.1 = w) := by
  cases hm : w.mode
  · simp only [initializedInv, hm] at hinv
    obtain ⟨bw, hbw⟩ := Option.isSome_iff_exists.mp hinv.1
    unfold BufferedWriter.flush at h
    rw [hm, hbw] at h
    simp at h
    cases hwt : BufferedWriter.flush_on_this_thread bw <;> simp [hwt] at h
    subst h
    refine ⟨?_, fun hc => by simp at hc⟩
    simp [initializedInv, hm, hinv.2]
  · simp only [initializedInv, hm] at hinv
    obtain ⟨u, hsu⟩ := Option.isSome_iff_exists.mp hinv.2
    unfold BufferedWriter.flush at h
    rw [hm, hsu] at h
    simp at h
    cases hsend : chan.send .Flush <;> simp [hsend] at h <;> subst h <;>
      exact ⟨by simp [initializedInv, hm, hinv.1, hsu], fun _ => rfl⟩

/-- C3: a successful `init()` establishes that exactly one producer-side
access path exists — `ThisThread`: the buffered stream is set and the
sender unset; `SeparateThread`: the sender is set and the buffered
stream has been moved away — and `write`/`flush` preserve this; for a
`SeparateThread` sink no later operation (including the teardown in
`flush_and_cleanup`) ever restores the buffered stream on the producer
side. -/
theorem c3_mode_exclusivity (env : Env) (b w : BufferedWriter)
    (hpre : preInit b) (hinit : BufferedWriter.init env b = some (.ok w)) :
    initializedInv w ∧
    (∀ chan msg r, w.write chan msg = .ok r →
      initializedInv r.1 ∧ (w.mode = .SeparateThread → r.1 = w)) ∧
    (∀ chan r, w.flush chan = .ok r →
      initializedInv r.1 ∧ (w.mode = .SeparateThread → r.1 = w)) ∧
    (w.mode = .SeparateThread → w.buf_writer = none ∧
      (∀ chan r, w.flush_and_cleanup chan = .ok r → r.1.buf_writer = none)) := by
  obtain ⟨hb, hs, ht⟩ := hpre
  have hinv : initializedInv w := by
    unfold BufferedWriter.init at hinit
    cases hiw : BufferedWriter.init_writers env b <;> rw [hiw] at hinit
    · simp at hinit
    · rename_i res
      cases res with
      | error e => simp at hinit
      | ok w1 =>
        have hw1 := init_writers_ok_shape env b w1 hb hiw
        simp at hinit
        cases hm : w1.mode <;> rw [hm] at hinit
        · simp at hinit
          have hbm : b.mode = .ThisThread := by
            rw [hw1] at hm
            exact hm
          rw [← hinit, hw1]
          simp [initializedInv, hbm, hs]
        · have hw := init_sep_ok_shape env w1 w
            (by rw [hw1]; exact ht) (by rw [hw1]; exact hs)
            (by rw [hw1]; simp) hinit
          rw [hw]
          simp [initializedInv, hm]
  refine ⟨hinv, fun chan msg r h => write_preserves_inv w hinv chan msg r h,
    fun chan r h => flush_preserves_inv w hinv chan r h, fun hm => ?_⟩
  have hbw : w.buf_writer = none := by
    simp only [initializedInv, hm] at hinv
    exact hinv.1
  refine ⟨hbw, fun chan r h => ?_⟩
  unfold BufferedWriter.flush_and_cleanup at h
  cases hfl : w.flush chan <;> rw [hfl] at h
  · simp at h
  · rename_i q
    have hq := (flush_preserves_inv w hinv chan q hfl).2 hm
    simp at h
    rw [← h]
    unfold BufferedWriter.cleanup
    rw [hq, hm]
    simp [hbw]

theorem c3_witness :
    initializedInv wSepWriter ∧
    (∀ chan msg r, wSepWriter.write chan msg = .ok r →
      initializedInv r.1 ∧ (wSepWriter.mode = .SeparateThread → r.1 = wSepWriter)) ∧
    (∀ chan r, wSepWriter.flush chan = .ok r →
      initializedInv r.1 ∧ (wSepWriter.mode = .SeparateThread → r.1 = wSepWriter)) ∧
    (wSepWriter.mode = .SeparateThread → wSepWriter.buf_writer = none ∧
      (∀ chan r, wSepWriter.flush_and_cleanup chan = .ok r →
        r.1.buf_writer = none)) :=
  c3_mode_exclusivity goodEnv (mkStdoutWriter true (some 5)) wSepWriter
    ⟨rfl, rfl, rfl⟩ rfl

theorem init_writers_ne_none (env : Env) (b : BufferedWriter)
    (hb : b.buf_writer = none) :
    BufferedWriter.init_writers env b ≠ none := by
  unfold BufferedWriter.init_writers
  rw [hb]
  cases htg : b.target <;>
    cases hhp : env.hasParent <;> cases hdc : env.dirCreateOk <;>
      cases hfo : env.fileOpenOk <;> simp [hhp, hdc, hfo]

theorem init_ne_none (env : Env) (b : BufferedWriter) (hpre : preInit b) :
    BufferedWriter.init env b ≠ none := by
  obtain ⟨hb, hs, ht⟩ := hpre
  unfold BufferedWriter.init
  cases hiw : BufferedWriter.init_writers env b with
  | none => exact absurd hiw (init_writers_ne_none env b hb)
  | some res =>
    cases res with
    | error e => simp
    | ok w1 =>
      show (match w1.mode with
        | WriteMode.SeparateThread => BufferedWriter.init_separate_thread env w1
        | WriteMode.ThisThread => some (Except.ok w1)) ≠ none
      cases hm : w1.mode <;> try rw [hm]
      · simp
      · have hw1 := init_writers_ok_shape env b w1 hb hiw
        unfold BufferedWriter.init_separate_thread
        have h1 : w1.thread_handler = false := by rw [hw1]; exact ht
        have h2 : w1.sender = none := by rw [hw1]; exact hs
        have h3 : w1.buf_writer.isSome = true := by rw [hw1]; simp
        obtain ⟨bw, hbweq⟩ := Option.isSome_iff_exists.mp h3
        rw [h1, h2, hbweq]
        cases hsp : env.spawnOk <;> simp [hsp]

theorem mkFileWriter_preInit (p : String) (mt : Bool) (cap : Option Nat) :
    preInit (mkFileWriter p mt cap) ∧ (mkFileWriter p mt cap).target = .File := by
  cases mt <;> cases cap <;>
    simp [mkFileWriter, BufferedWriter.new, BufferedWriter.on_file,
      BufferedWriter.with_separate_thread, BufferedWriter.with_buffer_capacity, preInit]

theorem mkFileWriter_sep_mode (p : String) (cap : Option Nat) :
    (mkFileWriter p true cap).mode = .SeparateThread := by
  cases cap <;>
    simp [mkFileWriter, BufferedWriter.new, BufferedWriter.on_file,
      BufferedWriter.with_separate_thread, BufferedWriter.with_buffer_capacity]

theorem init_of_init_writers_error (env : Env) (b : BufferedWriter) (e : String)
    (h : BufferedWriter.init_writers env b = some (.error e)) :
    BufferedWriter.init env b = some (.error e) := by
  unfold BufferedWriter.init
  rw [h]

theorem init_writers_file_dir_fail (env : Env) (b : BufferedWriter)
    (hb : b.buf_writer = none) (htg : b.target = .File)
    (h1 : env.hasParent = true) (h2 : env.dirCreateOk = false) :
    BufferedWriter.init_writers env b =
      some (.error ("Error while creating directory for logging. Details: "
        ++ env.dirErrMsg)) := by
  unfold BufferedWriter.init_writers
  rw [hb, htg]
  simp [h1, h2]

theorem init_writers_file_open_fail (env : Env) (b : BufferedWriter)
    (hb : b.buf_writer = none) (htg : b.target = .File)
    (h1 : env.dirCreateOk = true) (h2 : env.fileOpenOk = false) :
    BufferedWriter.init_writers env b =
      some (.error ("Error while opening log file. Details: " ++ env.openErrMsg)) := by
  unfold BufferedWriter.init_writers
  rw [hb, htg]
  simp [h1, h2]

theorem init_writers_file_ok (env : Env) (b : BufferedWriter)
    (hb : b.buf_writer = none) (htg : b.target = .File)
    (h1 : env.dirCreateOk = true) (h2 : env.fileOpenOk = true) :
    BufferedWriter.init_writers env b =
      some (.ok { b with buf_writer := some ⟨b.buffer_capacity, [], [], env.sinkOk⟩ }) := by
  unfold BufferedWriter.init_writers
  rw [hb, htg]
  simp [h1, h2]

theorem init_sep_spawn_fail (env : Env) (w1 : BufferedWriter)
    (ht : w1.thread_handler = false) (hs : w1.sender = none)
    (hbw : w1.buf_writer.isSome = true) (hsp : env.spawnOk = false) :
    BufferedWriter.init_separate_thread env w1 =
      some (.error ("Unable to start Writer thread. Details " ++ env.spawnErrMsg)) := by
  obtain ⟨bw, hbweq⟩ := Option.isSome_iff_exists.mp hbw
  unfold BufferedWriter.init_separate_thread
  rw [ht, hs, hbweq]
  simp [hsp]

theorem init_sep_path (env : Env) (b : BufferedWriter)
    (w1 : BufferedWriter) (hiw : BufferedWriter.init_writers env b = some (.ok w1))
    (hm : w1.mode = .SeparateThread) :
    BufferedWriter.init env b = BufferedWriter.init_separate_thread env w1 := by
  unfold BufferedWriter.init
  rw [hiw]
  simp [hm]

/-- C6: a sink whose initialization fails — directory creation failure,
file open failure, or worker-spawn failure — is reported through a
descriptive diagnostic, is not added to the dispatcher's writers, and
the call returns normally (no panic), leaving the logger operating on
its remaining sinks. -/
theorem c6_init_failure_nonfatal (lg : Logger) (file_path : String) (mt : Bool)
    (cap : Option Nat) (env : Env) :
    Logger.add_writer_file lg file_path mt cap env ≠ none ∧
    (∀ e, BufferedWriter.init env (mkFileWriter file_path mt cap) = some (.error e) →
      Logger.add_writer_file lg file_path mt cap env =
        some (lg, some ("Error while initializing writer. Details: " ++ e))) ∧
    (env.hasParent = true → env.dirCreateOk = false →
      ∃ e, BufferedWriter.init env (mkFileWriter file_path mt cap) = some (.error e)) ∧
    (env.dirCreateOk = true → env.fileOpenOk = false →
      ∃ e, BufferedWriter.init env (mkFileWriter file_path mt cap) = some (.error e)) ∧
    (env.dirCreateOk = true → env.fileOpenOk = true → env.spawnOk = false →
      ∃ e, BufferedWriter.init env (mkFileWriter file_path true cap) = some (.error e)) := by
  obtain ⟨hpre, htg⟩ := mkFileWriter_preInit file_path mt cap
  refine ⟨?_, ?_, ?_, ?_, ?_⟩
  · unfold Logger.add_writer_file
    cases hin : BufferedWriter.init env (mkFileWriter file_path mt cap) with
    | none => exact absurd hin (init_ne_none env _ hpre)
    | some res => cases res <;> simp
  · intro e he
    unfold Logger.add_writer_file
    rw [he]
  · intro h1 h2
    exact ⟨_, init_of_init_writers_error env _ _
      (init_writers_file_dir_fail env _ hpre.1 htg h1 h2)⟩
  · intro h1 h2
    exact ⟨_, init_of_init_writers_error env _ _
      (init_writers_file_open_fail env _ hpre.1 htg h1 h2)⟩
  · intro h1 h2 h3
    obtain ⟨hpre2, htg2⟩ := mkFileWriter_preInit file_path true cap
    obtain ⟨hb2, hs2, hth2⟩ := hpre2
    have hiw := init_writers_file_ok env (mkFileWriter file_path true cap) hb2 htg2 h1 h2
    have hm1 : ({ mkFileWriter file_path true cap with
        buf_writer := some ⟨(mkFileWriter file_path true cap).buffer_capacity, [], [],
          env.sinkOk⟩ } : BufferedWriter).mode = .SeparateThread :=
      mkFileWriter_sep_mode file_path cap
    have hpath := init_sep_path env (mkFileWriter file_path true cap) _ hiw hm1
    rw [hpath, init_sep_spawn_fail env _ (by exact hth2) (by exact hs2) (by simp) h3]
    exact ⟨_, rfl⟩

theorem c6_witness :
    Logger.add_writer_file Logger.new "./LOGS/x.log" true none badOpenEnv ≠ none ∧
    Logger.add_writer_file Logger.new "./LOGS/x.log" true none badOpenEnv =
      some (Logger.new, some ("Error while initializing writer. Details: " ++
        ("Error while opening log file. Details: " ++
          "No such file or directory (os error 2)"))) ∧
    (∃ e, BufferedWriter.init badDirEnv (mkFileWriter "./LOGS/x.log" false none)
      = some (.error e)) ∧
    (∃ e, BufferedWriter.init badOpenEnv (mkFileWriter "./LOGS/x.log" false none)
      = some (.error e)) ∧
    (∃ e, BufferedWriter.init badSpawnEnv (mkFileWriter "./LOGS/x.log" true none)
      = some (.error e)) :=
  ⟨(c6_init_failure_nonfatal Logger.new "./LOGS/x.log" true none badOpenEnv).1,
   (c6_init_failure_nonfatal Logger.new "./LOGS/x.log" true none badOpenEnv).2.1
     ("Error while opening log file. Details: "
       ++ "No such file or directory (os error 2)") rfl,
   (c6_init_failure_nonfatal Logger.new "./LOGS/x.log" false none badDirEnv).2.2.1
     rfl rfl,
   (c6_init_failure_nonfatal Logger.new "./LOGS/x.log" false none badOpenEnv).2.2.2.1
     rfl rfl,
   (c6_init_failure_nonfatal Logger.new "./LOGS/x.log" true none badSpawnEnv).2.2.2.2
     rfl rfl rfl⟩

theorem flushOTT_ok_elim (bw bw1 : BufWriterSt)
    (h : BufferedWriter.flush_on_this_thread bw = some bw1) :
    bw.flush = .ok bw1 := by
  unfold BufferedWriter.flush_on_this_thread at h
  cases hf : bw.flush <;> rw [hf] at h <;> simp at h
  subst h
  simp [hf]

theorem flushCleanupAll_ok (ws : List (BufferedWriter × ChanSt)) :
    ∀ ws', flushCleanupAll ws = .ok ws' →
      ws'.length = ws.length ∧
      ∀ (i : Nat) (p p' : BufferedWriter × ChanSt), ws[i]? = some p → ws'[i]? = some p' →
        ∃ q, BufferedWriter.flush p.1 p.2 = .ok q ∧ p' = (q.1.cleanup, q.2) := by
  induction ws with
  | nil =>
    intro ws' h
    simp [flushCleanupAll] at h
    subst h
    simp
  | cons p ps ih =>
    intro ws' h
    unfold flushCleanupAll at h
    cases hf : p.1.flush_and_cleanup p.2 <;> rw [hf] at h <;> simp at h
    rename_i p1
    cases hr : flushCleanupAll ps <;> rw [hr] at h <;> simp at h
    rename_i ps1
    subst h
    have ihr := ih ps1 hr
    constructor
    · simp [ihr.1]
    · intro i q q' hq hq'
      cases i with
      | zero =>
        simp at hq hq'
        subst hq
        subst hq'
        unfold BufferedWriter.flush_and_cleanup at hf
        cases hfl : p.1.flush p.2 <;> rw [hfl] at hf <;> simp at hf
        rename_i q2
        obtain ⟨w1, c1⟩ := q2
        simp at hf
        exact ⟨(w1, c1), rfl, hf.symm⟩
      | succ n =>
        simp at hq hq'
        exact ihr.2 n q q' hq hq'

/-- C2: the dispatcher-level flush (`Log::flush` on `Logger`) applies
`flush_and_cleanup` to every configured sink sequentially in insertion
order (the i-th resulting sink state comes from the i-th original one):
each sink's own `flush` runs, followed by the teardown, and the mode
semantics hold per sink — a live `SeparateThread` sink gets exactly one
`Flush` signal appended to its queue, a `ThisThread` sink has its
buffered stream flushed in place. -/
theorem c2_flush_all_order (lg lg' : Logger) (h : Logger.flushAll lg = .ok lg') :
    lg'.writers.length = lg.writers.length ∧
    (∀ (i : Nat) (p p' : BufferedWriter × ChanSt),
      lg.writers[i]? = some p → lg'.writers[i]? = some p' →
      ∃ q, BufferedWriter.flush p.1 p.2 = .ok q ∧ p' = (q.1.cleanup, q.2)) ∧
    (∀ (i : Nat) (p p' : BufferedWriter × ChanSt),
      lg.writers[i]? = some p → lg'.writers[i]? = some p' →
      p.1.mode = .SeparateThread → p.1.sender.isSome = true →
      p.2.receiverAlive = true →
      p'.2.pending = p.2.pending ++ [MsgType.Flush]) ∧
    (∀ (i : Nat) (p p' : BufferedWriter × ChanSt) (bw : BufWriterSt),
      lg.writers[i]? = some p → lg'.writers[i]? = some p' →
      p.1.mode = .ThisThread → p.1.buf_writer = some bw →
      ∃ bw1, bw.flush = .ok bw1 ∧ p'.1.buf_writer = some bw1) := by
  have hall : flushCleanupAll lg.writers = .ok lg'.writers := by
    unfold Logger.flushAll at h
    cases hr : flushCleanupAll lg.writers <;> rw [hr] at h <;> simp at h
    rw [← h]
  obtain ⟨hlen, hidx⟩ := flushCleanupAll_ok lg.writers lg'.writers hall
  refine ⟨hlen, hidx, ?_, ?_⟩
  · intro i p p' hp hp' hm hsd hrc
    obtain ⟨q, hq, hq'⟩ := hidx i p p' hp hp'
    obtain ⟨u, hsu⟩ := Option.isSome_iff_exists.mp hsd
    unfold BufferedWriter.flush at hq
    rw [hm, hsu] at hq
    unfold ChanSt.send at hq
    simp [hrc] at hq
    rw [hq', ← hq]
  · intro i p p' bw hp hp' hm hbw
    obtain ⟨q, hq, hq'⟩ := hidx i p p' hp hp'
    unfold BufferedWriter.flush at hq
    rw [hm, hbw] at hq
    simp at hq
    cases hwt : BufferedWriter.flush_on_this_thread bw <;> rw [hwt] at hq <;> simp at hq
    rename_i bw1
    refine ⟨bw1, flushOTT_ok_elim bw bw1 hwt, ?_⟩
    rw [hq', ← hq]
    unfold BufferedWriter.cleanup
    simp [hm]

theorem c2_witness :
    c2LoggerFlushed.writers.length = c2Logger.writers.length ∧
    (∀ (i : Nat) (p p' : BufferedWriter × ChanSt),
      c2Logger.writers[i]? = some p →
      c2LoggerFlushed.writers[i]? = some p' →
      ∃ q, BufferedWriter.flush p.1 p.2 = .ok q ∧ p' = (q.1.cleanup, q.2)) ∧
    (∀ (i : Nat) (p p' : BufferedWriter × ChanSt),
      c2Logger.writers[i]? = some p →
      c2LoggerFlushed.writers[i]? = some p' →
      p.1.mode = .SeparateThread → p.1.sender.isSome = true →
      p.2.receiverAlive = true →
      p'.2.pending = p.2.pending ++ [MsgType.Flush]) ∧
    (∀ (i : Nat) (p p' : BufferedWriter × ChanSt) (bw : BufWriterSt),
      c2Logger.writers[i]? = some p →
      c2LoggerFlushed.writers[i]? = some p' →
      p.1.mode = .ThisThread → p.1.buf_writer = some bw →
      ∃ bw1, bw.flush = .ok bw1 ∧ p'.1.buf_writer = some bw1) :=
  c2_flush_all_order c2Logger c2LoggerFlushed rfl

/-- C1: evaluation at the scenario of
`examples/file_and_stdout/different-levels.rs`: under global level
`Trace`, a file sink is configured (the example intends it to admit only
`Error`-or-more-severe records, but no level can be attached: the sink
type has no minimum-level field and `add_writer_file_with_level` does
not exist in the sources), and an `Info` record is dispatched.
`Logger::log` checks only the global level and writes the formatted line
to every configured writer, so the Info line reaches the sink's queue,
while the spec's per-sink rule (`specDelivered`, R at or above L and at
or above S) says a sink with minimum level `Error` must not receive
it. -/
theorem c1_info_reaches_error_level_sink :
    (Logger.new.with_level .Trace).add_writer_file "./LOGS/genercs_1.log" true (some 10)
        goodEnv = some (c1LoggerInit, none) ∧
    Logger.log c1LoggerInit c1Rec c1Fmt = .ok c1LoggerAfter ∧
    (c1LoggerAfter.writers.map fun p => p.2.pending) =
      [[MsgType.Msg (c1LoggerInit.formatMessage c1Rec c1Fmt)]] ∧
    specDelivered c1Rec.level LevelFilter.Trace LevelFilter.Error = false :=
  ⟨rfl, rfl, rfl, rfl⟩
